import Mathlib

/-!
Verification development for the Wikipedia-agent repository
(`src/homework/homework_week4` and `src/homework/homework_week3`).

The Python source is shallowly embedded: pure computations become Lean
functions, the external model invocation and the per-item evaluation
pipeline are abstracted as explicit outcome values, the asyncio task
supervisor is given a denotational model over task behaviours, Python
floats become rationals, and Python ints become naturals.
-/

/-! ## String helpers

Python string operations used by the source: `kw in s` (substring test)
and `s.lower()`.  `Char.toLower` mirrors Python lowercasing on the ASCII
range, which covers every keyword and exception text in the source.
-/

/-- Boolean test that `p` is an initial segment of `l` (Python startswith,
used only to build the substring test below). -/
def leadsWith : List Char → List Char → Bool
  | [], _ => true
  | _ :: _, [] => false
  | a :: as, b :: bs => a == b && leadsWith as bs

/-- Boolean substring test on character lists: Python `needle in hay`. -/
def hasSub (needle : List Char) : List Char → Bool
  | [] => leadsWith needle []
  | h :: t => leadsWith needle (h :: t) || hasSub needle t

/-- Python `needle in hay` on strings. -/
def strIn (needle hay : String) : Bool :=
  hasSub needle.toList hay.toList

/-- Python `s.lower()`. -/
def lowerStr (s : String) : String :=
  ⟨s.toList.map Char.toLower⟩

/-! ## Data model

The record types of `wikiagent.models` are not shipped under `src/`; every
field below is pinned by the construction sites in
`wikiagent/wikipagent.py`, `evals/judge.py` and the assertions in
`tests/wikiagent/test_agent.py`.
-/

/-- Token usage record: `TokenUsage(input_tokens, output_tokens, total_tokens)`
as constructed in `wikipagent.py` lines 180-184. -/
structure TokenUsage where
  input_tokens : Nat
  output_tokens : Nat
  total_tokens : Nat
deriving DecidableEq, Repr

/-- Structured agent error: `AgentError(error_type, message, suggestion,
technical_details)` as constructed in `wikipagent.py` lines 138-164 and
`error_handler.py` lines 41-53. -/
structure AgentError where
  error_type : String
  message : String
  suggestion : String
  technical_details : String
deriving DecidableEq, Repr

/-- Structured agent output: `SearchAgentAnswer(answer, confidence,
sources_used, reasoning)` as constructed in `tests/wikiagent/test_judge.py`. -/
structure SearchAgentAnswer where
  answer : String
  confidence : ℚ
  sources_used : List String
  reasoning : Option String
deriving DecidableEq, Repr

/-- One recorded tool call: the dict `{"tool_name": ..., "args": ...}`
appended by `track_tool_calls` in `wikipagent.py` lines 34-38. -/
structure ToolCallRec where
  tool_name : String
  args : String
deriving DecidableEq, Repr

/-- Coordinator result: `WikipediaAgentResponse(answer, tool_calls, usage,
error)` as constructed in `wikipagent.py` lines 166-171 and 186-190. -/
structure WikipediaAgentResponse where
  answer : Option SearchAgentAnswer
  tool_calls : List ToolCallRec
  usage : Option TokenUsage
  error : Option AgentError
deriving DecidableEq, Repr

/-- Judge verdict: `JudgeEvaluation(overall_score, accuracy, completeness,
relevance, reasoning)` as constructed in `evals/judge.py` lines 59-65. -/
structure JudgeEvaluation where
  overall_score : ℚ
  accuracy : ℚ
  completeness : ℚ
  relevance : ℚ
  reasoning : String
deriving DecidableEq, Repr

/-- Search strategy modes, from `config/__init__.py` class `SearchMode`. -/
inductive SearchMode where
  | evaluation
  | production
  | research
deriving DecidableEq, Repr

/-! ## Event stream and tool-call tracking

`track_tool_calls` (`wikipagent.py` lines 22-61) receives the events the
model runtime emits during one run.  An event either is a function tool
call (`FunctionToolCallEvent`, carrying a tool name and arguments), some
other event kind, or a nested asynchronous sub-stream, which the handler
drains recursively (`if hasattr(event, "__aiter__")`).
-/

/-- Event emitted by the model runtime during an agent run. -/
inductive AgentEvent where
  | toolCall (toolName : String) (args : String) : AgentEvent
  | otherEvent : AgentEvent
  | nested (subs : List AgentEvent) : AgentEvent

mutual

/-- Embedding of `track_tool_calls` (`wikipagent.py` lines 22-61): the
accumulator is the module-level `_tool_calls` list; a tool-call event
appends `{"tool_name", "args"}`; a nested stream is drained recursively;
every other event is ignored. -/
def track_tool_calls (calls : List ToolCallRec) : AgentEvent → List ToolCallRec
  | .nested subs => trackSubs calls subs
  | .toolCall n a => calls ++ [⟨n, a⟩]
  | .otherEvent => calls

/-- Sequential processing of a sub-stream by `track_tool_calls`
(the `async for sub in event` loop). -/
def trackSubs (calls : List ToolCallRec) : List AgentEvent → List ToolCallRec
  | [] => calls
  | e :: es => trackSubs (track_tool_calls calls e) es

end

mutual

/-- Compositional description of the recorded calls of one event: the leaf
tool-call events of the event tree, in depth-first emission order.  Stated
from the specification wording on ToolInvocationTracker (spec section 4.2)
and proved equal to the accumulator-style `track_tool_calls`. -/
def flattenCalls : AgentEvent → List ToolCallRec
  | .toolCall n a => [⟨n, a⟩]
  | .otherEvent => []
  | .nested subs => flattenList subs

/-- List version of `flattenCalls`. -/
def flattenList : List AgentEvent → List ToolCallRec
  | [] => []
  | e :: es => flattenCalls e ++ flattenList es

end

/-- Number of recorded calls of one tool, as computed by the tests
(`tests/wikiagent/test_agent.py` lines 51-78: filter by `tool_name`, take
the length). -/
def countCalls (name : String) (calls : List ToolCallRec) : Nat :=
  (calls.filter (fun c => c.tool_name == name)).length

/-! ## Coordinator `query_wikipedia`

`query_wikipedia` (`homework_week4/wikiagent/wikipagent.py` lines 64-190)
resets the tracker, runs the agent, and either returns the output with its
token usage or converts the caught exception (`except Exception`, line
129) into a structured error response.  The external `agent.run` is
abstracted as an `AgentRunOutcome`: the event stream the handler processed
plus either the structured output with provider token counts, or the
raised exception, given by its type name (`type(e).__name__`) and message
(`str(e)`).
-/

/-- Outcome of the external `agent.run` call. -/
inductive AgentRunOutcome where
  | ok (events : List AgentEvent) (output : SearchAgentAnswer)
      (input_tokens output_tokens : Nat)
  | exn (events : List AgentEvent) (excType excMsg : String)

/-- Fallback suggestion text of the unmatched-error branch
(`wikipagent.py` line 162 and `error_handler.py` line 51). -/
def fallbackSuggestionText : String :=
  "Please try again. If the problem persists, check your internet connection and API configuration."

/-- Inline exception classification of `query_wikipedia`
(`wikipagent.py` lines 133-164), translated branch by branch:
case-sensitive `"Wikipedia" in error_msg or "HTTP" in error_msg`, then
`"Connection" in error_type or "connection" in error_msg.lower()`, then
`"Timeout" in error_type or "timeout" in error_msg.lower()`, else the
fallback carrying the exception type name. -/
def classifyAgentException (error_type error_msg : String) : AgentError :=
  if strIn "Wikipedia" error_msg || strIn "HTTP" error_msg then
    { error_type := "WikipediaAPI"
      message := "Wikipedia API error. The page may not exist or the service is temporarily unavailable."
      suggestion := "Try rephrasing your question or asking about a different topic."
      technical_details := error_msg }
  else if strIn "Connection" error_type || strIn "connection" (lowerStr error_msg) then
    { error_type := "Network"
      message := "Connection error. Please check your internet connection."
      suggestion := "The Wikipedia API could not be reached. Please try again in a moment."
      technical_details := error_msg }
  else if strIn "Timeout" error_type || strIn "timeout" (lowerStr error_msg) then
    { error_type := "Timeout"
      message := "Request timed out. The Wikipedia API took too long to respond."
      suggestion := "Please try again with a simpler question or check your connection."
      technical_details := error_msg }
  else
    { error_type := error_type
      message := "An error occurred: " ++ error_type
      suggestion := fallbackSuggestionText
      technical_details := error_msg }

/-- Embedding of `query_wikipedia` (`wikipagent.py` lines 64-190).  The
tracker is reset (`_tool_calls = []`) and fed the run events; on success
the response carries the output, the recorded calls, and
`TokenUsage(input, output, input + output)`; on a caught exception it
carries the inline classification, the recorded calls, and no usage.
The question and model name parametrise only the external invocation. -/
def query_wikipedia (question openai_model : String) (search_mode : SearchMode)
    (run : AgentRunOutcome) : WikipediaAgentResponse :=
  match question, openai_model, search_mode, run with
  | _, _, _, .ok events out it ot =>
      { answer := some out
        tool_calls := trackSubs [] events
        usage := some ⟨it, ot, it + ot⟩
        error := none }
  | _, _, _, .exn events ty msg =>
      { answer := none
        tool_calls := trackSubs [] events
        usage := none
        error := some (classifyAgentException ty msg) }

/-! ## Keyword-table classifier `handle_agent_error`

`error_handler.py` lines 10-60 with the tables of `wikiagent/config.py`
lines 68-87, iterated in `ErrorCategory` declaration order
(WIKIPEDIA, CONNECTION, TIMEOUT).
-/

/-- One entry of `ERROR_MAPPINGS` (`wikiagent/config.py` lines 68-87). -/
structure ErrorMapping where
  error_type : String
  message : String
  suggestion : String
  keywords : List String
deriving DecidableEq, Repr

/-- The `ERROR_MAPPINGS` table in `ErrorCategory` iteration order. -/
def ERROR_MAPPINGS : List ErrorMapping :=
  [ { error_type := "WikipediaAPI"
      message := "Wikipedia API error. The page may not exist or the service is temporarily unavailable."
      suggestion := "Try rephrasing your question or asking about a different topic."
      keywords := ["wikipedia", "http"] }
  , { error_type := "Network"
      message := "Connection error. Please check your internet connection."
      suggestion := "The Wikipedia API could not be reached. Please try again in a moment."
      keywords := ["connection"] }
  , { error_type := "Timeout"
      message := "Request timed out. The Wikipedia API took too long to respond."
      suggestion := "Please try again with a simpler question or check your connection."
      keywords := ["timeout"] } ]

/-- First matching mapping (`error_handler.py` lines 30-38): a mapping
matches when any of its keywords occurs in the lowercased message or in
the lowercased type name; the loop breaks at the first match. -/
def findErrorConfig (error_msg error_type_lower : String) :
    List ErrorMapping → Option ErrorMapping
  | [] => none
  | m :: ms =>
      if m.keywords.any (fun kw => strIn kw error_msg)
          || m.keywords.any (fun kw => strIn kw error_type_lower) then
        some m
      else
        findErrorConfig error_msg error_type_lower ms

/-- Embedding of `handle_agent_error` (`error_handler.py` lines 10-60):
lowercase the message and the type name, look up the first matching
mapping, and build the error response; an unmatched exception keeps its
own type name as category.  The `tool_calls` argument is passed through
unchanged into the response. -/
def handle_agent_error (excType excMsg : String)
    (tool_calls : List ToolCallRec) : WikipediaAgentResponse :=
  let error_msg := lowerStr excMsg
  let error_type_lower := lowerStr excType
  let agent_error :=
    match findErrorConfig error_msg error_type_lower ERROR_MAPPINGS with
    | some cfg =>
        { error_type := cfg.error_type
          message := cfg.message
          suggestion := cfg.suggestion
          technical_details := excMsg }
    | none =>
        { error_type := excType
          message := "An error occurred: " ++ excType
          suggestion := fallbackSuggestionText
          technical_details := excMsg }
  { answer := none
    tool_calls := tool_calls
    usage := none
    error := some agent_error }

/-- Classification table asserted by claim C7, written from the claim
wording: ordered keyword tables ModelAPI ["api", "http"], Network
["connection"], Timeout ["timeout"], unmatched assigned "Unknown";
keywords tested against the type name and the message. -/
def claimC7Category (excType excMsg : String) : String :=
  if strIn "api" (lowerStr excMsg) || strIn "api" (lowerStr excType)
      || strIn "http" (lowerStr excMsg) || strIn "http" (lowerStr excType) then
    "ModelAPI"
  else if strIn "connection" (lowerStr excMsg) || strIn "connection" (lowerStr excType) then
    "Network"
  else if strIn "timeout" (lowerStr excMsg) || strIn "timeout" (lowerStr excType) then
    "Timeout"
  else
    "Unknown"

/-- Category table of the amended claim C7: ordered tables with the
keywords of `ERROR_MAPPINGS`, each keyword tested case-insensitively
against the message or the type name, the first matching table naming the
category, and an unmatched failure keeping the exception type name. -/
def keywordTableCategory (tables : List (String × List String))
    (excType excMsg : String) : String :=
  match tables with
  | [] => excType
  | (name, kws) :: rest =>
      if kws.any (fun kw => strIn kw (lowerStr excMsg) || strIn kw (lowerStr excType)) then
        name
      else
        keywordTableCategory rest excType excMsg

/-- Keyword tables of the amended claim C7. -/
def amendedC7Tables : List (String × List String) :=
  [("WikipediaAPI", ["wikipedia", "http"]),
   ("Network", ["connection"]),
   ("Timeout", ["timeout"])]

/-! ## Guardrail supervisor

`guardrails.py` defines `cost_guardrail` (lines 24-50), `query_guardrail`
(lines 53-79) and `run_with_guardrails` (lines 82-119).  The supervisor is
modelled denotationally over task behaviours on a discrete time line.
Semantics of the asyncio primitives used by the source:
`asyncio.create_task` starts each coroutine as an independently scheduled
task; `asyncio.gather(ts)` (without `return_exceptions`) completes once
every task has completed and propagates the chronologically first raised
exception as soon as it occurs, without cancelling the remaining tasks;
`t.cancel()` on a finished task is a no-op, on a running task it makes the
next `await t` raise `CancelledError`.
-/

/-- Behaviour of one guardrail coroutine: it completes normally at a tick,
raises a `GuardrailException` at a tick, or runs forever (the
`while True` poll loop of `cost_guardrail` when the cost never exceeds the
limit). -/
inductive GuardrailBeh where
  | completes (t : Nat)
  | trips (t : Nat) (msg : String)
  | runsForever
deriving DecidableEq, Repr

/-- Behaviour of the agent coroutine. -/
inductive AgentBeh (α : Type) where
  | completes (t : Nat) (result : α)
  | runsForever
deriving DecidableEq, Repr

/-- Final disposition of one task when `run_with_guardrails` ends:
finished on its own, cancelled by the supervisor, or still scheduled
(abandoned without cancellation). -/
inductive TaskFinal where
  | finished
  | cancelled
  | stillScheduled
deriving DecidableEq, Repr

/-- Supervisor actions of the `except GuardrailException` branch of
`run_with_guardrails` (lines 106-119), in program order. -/
inductive SupAction where
  | cancelAgent
  | awaitAgentCancel
  | cancelGuardrail (i : Nat)
  | awaitGuardrailCancels
  | reraiseTrip (msg : String)
deriving DecidableEq, Repr

/-- Result of one `run_with_guardrails` call: never returns, returns the
agent result, or raises the guardrail exception. -/
inductive RunResult (α : Type) where
  | hangs
  | returned (r : α) (t : Nat)
  | raisedTrip (t : Nat) (msg : String)
deriving DecidableEq, Repr

/-- Full report of one `run_with_guardrails` call: its result, the
supervisor actions performed, and the final disposition of the agent task
and of each guardrail task. -/
structure RunReport (α : Type) where
  result : RunResult α
  actions : List SupAction
  agentFinal : TaskFinal
  guardFinals : List TaskFinal
deriving DecidableEq, Repr

/-- Trip time and message of one guardrail behaviour, when it trips. -/
def tripOf : GuardrailBeh → Option (Nat × String)
  | .trips t m => some (t, m)
  | _ => none

/-- Chronologically first trip among the guardrail behaviours (ties
resolved in task creation order, matching scheduling order). -/
def firstTrip (gs : List GuardrailBeh) : Option (Nat × String) :=
  gs.foldl
    (fun acc g =>
      match acc, tripOf g with
      | none, o => o
      | some (t, m), some (t2, m2) => if t2 < t then some (t2, m2) else some (t, m)
      | some x, none => some x)
    none

/-- Whether a guardrail task has finished (completed or raised) by tick `t`. -/
def guardDoneBy (t : Nat) : GuardrailBeh → Bool
  | .completes s => s ≤ t
  | .trips s _ => s ≤ t
  | .runsForever => false

/-- Whether a guardrail coroutine eventually completes normally. -/
def guardCompletes : GuardrailBeh → Bool
  | .completes _ => true
  | _ => false

/-- Final disposition of a task that is never cancelled. -/
def finalNoCancel : GuardrailBeh → TaskFinal
  | .completes _ => .finished
  | .trips _ _ => .finished
  | .runsForever => .stillScheduled

/-- Latest completion tick among normally completing guardrails. -/
def lastGuardCompletion (gs : List GuardrailBeh) : Nat :=
  gs.foldl
    (fun acc g =>
      match g with
      | .completes s => max acc s
      | _ => acc)
    0

/-- Denotational embedding of `run_with_guardrails` (`guardrails.py` lines
82-119) over the task behaviours.

With some guardrail tripping first at tick `tg`, the `await asyncio.gather`
on line 103 raises that `GuardrailException` at `tg`; the handler (lines
106-119) then cancels the agent task and awaits it (a completed agent task
is unaffected, a running one becomes cancelled), cancels every guardrail
task in list order, awaits them with `return_exceptions=True`, and
re-raises; a guardrail already finished by `tg` stays finished, every
other one becomes cancelled.

With no trip, `gather` completes only when the agent and every guardrail
have completed, and line 104 returns the agent result with no task ever
cancelled; if the agent or any guardrail runs forever, the call never
returns and no cancellation is performed on any task. -/
def run_with_guardrails {α : Type} (agent : AgentBeh α) (gs : List GuardrailBeh) :
    RunReport α :=
  match firstTrip gs with
  | some (tg, msg) =>
      { result := .raisedTrip tg msg
        actions := [.cancelAgent, .awaitAgentCancel]
          ++ (List.range gs.length).map SupAction.cancelGuardrail
          ++ [.awaitGuardrailCancels, .reraiseTrip msg]
        agentFinal :=
          match agent with
          | .completes ta _ => if ta ≤ tg then .finished else .cancelled
          | .runsForever => .cancelled
        guardFinals := gs.map (fun g => if guardDoneBy tg g then .finished else .cancelled) }
  | none =>
      match agent with
      | .completes ta r =>
          if gs.all guardCompletes then
            { result := .returned r (max ta (lastGuardCompletion gs))
              actions := []
              agentFinal := .finished
              guardFinals := gs.map (fun _ => .finished) }
          else
            { result := .hangs
              actions := []
              agentFinal := .finished
              guardFinals := gs.map finalNoCancel }
      | .runsForever =>
          { result := .hangs
            actions := []
            agentFinal := .stillScheduled
            guardFinals := gs.map finalNoCancel }

/-- Hypothesis form for claim C4: the agent task is still running at tick
`t`. -/
def agentRunningAt {α : Type} (agent : AgentBeh α) (t : Nat) : Prop :=
  match agent with
  | .completes ta _ => t < ta
  | .runsForever => True

/-- Behaviour of `cost_guardrail` (`guardrails.py` lines 24-50) for a
given limit and cost trace: the loop sleeps `check_interval`, reads
`cost_tracker["total"]` and raises once the reading exceeds `max_cost`;
`trace n` is the reading at the n-th check.  The coroutine trips at the
first check whose reading exceeds the limit, and runs forever when no
reading ever does; it never completes normally. -/
def cost_guardrail_beh (max_cost : ℚ) (trace : Nat → ℚ) : GuardrailBeh → Prop
  | .trips t _ => max_cost < trace t ∧ ∀ s < t, trace s ≤ max_cost
  | .completes _ => False
  | .runsForever => ∀ t, trace t ≤ max_cost

/-! ## Judge retry loop

`_run_judge_with_retry` (`homework_week3/evals/judge.py` lines 23-80):
`for attempt in range(max_retries)`, each iteration invokes the judge
model; success returns the evaluation with the usage dict
`{input, output, input + output}`; a failure on the last attempt
(`attempt == max_retries - 1`) returns the zero fallback; any other
failure sleeps `2 ** attempt` seconds and retries; a loop that finishes
without returning raises `RuntimeError`.  The judge model invocation at
each attempt is abstracted as an oracle from the attempt index.
-/

/-- Outcome of the judge model invocation at one attempt. -/
inductive JudgeAttemptResult where
  | ok (ev : JudgeEvaluation) (input_tokens output_tokens : Nat)
  | err (msg : String)

/-- Fallback evaluation built on the last failed attempt
(`judge.py` lines 59-65). -/
def fallbackEval (msg : String) : JudgeEvaluation :=
  { overall_score := 0
    accuracy := 0
    completeness := 0
    relevance := 0
    reasoning := "Judge evaluation failed: " ++ msg }

/-- Remaining loop iterations of `_run_judge_with_retry`, starting at
`attempt` with `remaining = max_retries - attempt` iterations left;
`Except.error` models the post-loop `raise RuntimeError`. -/
def judgeRetryGo (oracle : Nat → JudgeAttemptResult) (max_retries : Nat) :
    Nat → Nat → Except String (JudgeEvaluation × TokenUsage)
  | _, 0 => .error "Judge evaluation failed after all retries"
  | attempt, remaining + 1 =>
      match oracle attempt with
      | .ok ev it ot => .ok (ev, ⟨it, ot, it + ot⟩)
      | .err m =>
          if attempt = max_retries - 1 then
            .ok (fallbackEval m, ⟨0, 0, 0⟩)
          else
            judgeRetryGo oracle max_retries (attempt + 1) remaining

/-- Back-off sleeps performed by the same loop (`await asyncio.sleep(wait_time)`
with `wait_time = 2 ** attempt`, `judge.py` lines 72-77), as the trace of
sleep durations in seconds: a sleep happens exactly after each failed
attempt other than the last one. -/
def judgeSleeps (oracle : Nat → JudgeAttemptResult) (max_retries : Nat) :
    Nat → Nat → List Nat
  | _, 0 => []
  | attempt, remaining + 1 =>
      match oracle attempt with
      | .ok _ _ _ => []
      | .err _ =>
          if attempt = max_retries - 1 then []
          else 2 ^ attempt :: judgeSleeps oracle max_retries (attempt + 1) remaining

/-- Embedding of `_run_judge_with_retry` (`judge.py` lines 23-80): the
loop runs `max_retries` iterations starting at attempt 0. -/
def run_judge_with_retry (oracle : Nat → JudgeAttemptResult) (max_retries : Nat) :
    Except String (JudgeEvaluation × TokenUsage) :=
  judgeRetryGo oracle max_retries 0 max_retries

/-- Sleep trace of one `_run_judge_with_retry` call. -/
def judge_sleep_trace (oracle : Nat → JudgeAttemptResult) (max_retries : Nat) :
    List Nat :=
  judgeSleeps oracle max_retries 0 max_retries

/-! ## Evaluation runner

`evaluate_agent` (`homework_week4/evals/evaluate.py` lines 27-143):
a sequential `for` loop over the dataset items; the per-item pipeline
(agent call, hit rate, MRR, judge, token sum, combined score) sits inside
one `try` block; on success a record with the computed metrics is
appended, on any exception the fallback record with all metrics zero is
appended and the loop continues.  The per-item pipeline is abstracted as
an outcome carried by the item.
-/

/-- One record appended to `results` by `evaluate_agent`. -/
structure EvalRecord where
  question : String
  hit_rate : ℚ
  mrr : ℚ
  judge_score : ℚ
  num_tokens : Nat
  combined_score : ℚ
deriving DecidableEq, Repr

/-- Outcome of the per-item pipeline inside the `try` block: the computed
metrics, or a raised exception. -/
inductive ItemOutcome where
  | ok (hit_rate mrr judge_score : ℚ) (num_tokens : Nat) (combined_score : ℚ)
  | raises (msg : String)

/-- Fallback record of the `except` branch (`evaluate.py` lines 117-129),
built from the fallback constants of lines 20-24 (all zero). -/
def fallbackRecord (question : String) : EvalRecord :=
  { question := question
    hit_rate := 0
    mrr := 0
    judge_score := 0
    num_tokens := 0
    combined_score := 0 }

/-- Record appended for one item (`evaluate.py` lines 99-108 on success,
lines 120-129 on failure). -/
def itemRecord (item : String × ItemOutcome) : EvalRecord :=
  match item with
  | (q, .ok h m j t c) =>
      { question := q, hit_rate := h, mrr := m, judge_score := j
        num_tokens := t, combined_score := c }
  | (q, .raises _) => fallbackRecord q

/-- The sequential evaluation loop of `evaluate_agent` (`evaluate.py`
lines 64-129), with `acc` the `results` list accumulated so far. -/
def evalLoop (items : List (String × ItemOutcome)) (acc : List EvalRecord) :
    List EvalRecord :=
  match items with
  | [] => acc
  | item :: rest => evalLoop rest (acc ++ [itemRecord item])

/-- Embedding of the record-producing part of `evaluate_agent`: the
`results` list handed to `save_evaluation_results` after the loop. -/
def evaluate_agent (items : List (String × ItemOutcome)) : List EvalRecord :=
  evalLoop items []

/-! ## Result persistence

`save_evaluation_results` (`homework_week4/evals/save_results.py` lines
11-103): the records are sorted by `combined_score` descending, the
summary statistics are computed over the (sorted) records, and the report
document is written out.  The sort is modelled with insertion sort by the
same key: the source fixes only the key and the direction, not the tie
order.  The timestamp and the file write are outside the embedding.
-/

/-- Insertion step of the descending sort by `combined_score`. -/
def insertByScore (r : EvalRecord) : List EvalRecord → List EvalRecord
  | [] => [r]
  | x :: xs =>
      if x.combined_score ≤ r.combined_score then
        r :: x :: xs
      else
        x :: insertByScore r xs

/-- Sort by `combined_score` descending (`save_results.py` line 73:
`df.sort_values("combined_score", ascending=False)`). -/
def sortByScoreDesc (l : List EvalRecord) : List EvalRecord :=
  match l with
  | [] => []
  | r :: rest => insertByScore r (sortByScoreDesc rest)

/-- Maximum of a rational series (`df["combined_score"].max()`); the
source computes it only on a nonempty column. -/
def seriesMax : List ℚ → ℚ
  | [] => 0
  | x :: xs => xs.foldl max x

/-- Sum of a rational series (used for the averages). -/
def seriesSum (l : List ℚ) : ℚ :=
  l.foldl (· + ·) 0

/-- Summary block of the persisted report (`save_results.py` lines
77-89). -/
structure EvalSummary where
  avg_hit_rate : ℚ
  avg_mrr : ℚ
  avg_judge_score : ℚ
  avg_num_tokens : ℚ
  total_tokens : Nat
  avg_combined_score : ℚ
  best_combined_score : ℚ
deriving DecidableEq, Repr

/-- Persisted report document (`save_results.py` lines 91-98), without the
wall-clock timestamp and the optional metadata dict. -/
structure EvalReport where
  num_questions : Nat
  summary : EvalSummary
  results : List EvalRecord
deriving DecidableEq, Repr

/-- Embedding of `save_evaluation_results` (`save_results.py` lines
11-103) for a nonempty results list (on which every column check of lines
72-89 passes): sort by `combined_score` descending, then compute the
summary over the sorted records. -/
def save_evaluation_results (results : List EvalRecord) : EvalReport :=
  let sorted := sortByScoreDesc results
  let n : ℚ := (sorted.length : ℚ)
  { num_questions := sorted.length
    summary :=
      { avg_hit_rate := seriesSum (sorted.map (·.hit_rate)) / n
        avg_mrr := seriesSum (sorted.map (·.mrr)) / n
        avg_judge_score := seriesSum (sorted.map (·.judge_score)) / n
        avg_num_tokens := seriesSum (sorted.map (fun r => (r.num_tokens : ℚ))) / n
        total_tokens := (sorted.map (·.num_tokens)).sum
        avg_combined_score := seriesSum (sorted.map (·.combined_score)) / n
        best_combined_score := seriesMax (sorted.map (·.combined_score)) }
    results := sorted }

/-- Concrete three-record batch used to witness the persistence claim. -/
def sampleRecords : List EvalRecord :=
  [ { question := "a", hit_rate := 1, mrr := 1, judge_score := 1,
      num_tokens := 100, combined_score := 3/2 }
  , { question := "b", hit_rate := 0, mrr := 0, judge_score := 0,
      num_tokens := 50, combined_score := 1/2 }
  , { question := "c", hit_rate := 1, mrr := 1/2, judge_score := 4/5,
      num_tokens := 200, combined_score := 9/5 } ]

/-! ## Tracker lemmas -/

/-- Processing an event appends exactly its depth-first leaf tool calls. -/
theorem track_tool_calls_eq_append (calls : List ToolCallRec) (e : AgentEvent) :
    track_tool_calls calls e = calls ++ flattenCalls e := by
  refine track_tool_calls.induct
    (fun c ev => track_tool_calls c ev = c ++ flattenCalls ev)
    (fun c evs => trackSubs c evs = c ++ flattenList evs)
    ?_ ?_ ?_ ?_ ?_ calls e
  · intro c subs ih
    simpa [track_tool_calls, flattenCalls] using ih
  · intro c n a
    simp [track_tool_calls, flattenCalls]
  · intro c
    simp [track_tool_calls, flattenCalls]
  · intro c
    simp [trackSubs, flattenList]
  · intro c ev evs ih1 ih2
    simp only [trackSubs, flattenList]
    rw [ih2, ih1, List.append_assoc]

/-- Processing an event list appends exactly its depth-first leaf tool
calls, in emission order. -/
theorem trackSubs_eq_append (calls : List ToolCallRec) (es : List AgentEvent) :
    trackSubs calls es = calls ++ flattenList es := by
  induction es generalizing calls with
  | nil => simp [trackSubs, flattenList]
  | cons e es ih =>
      simp only [trackSubs, flattenList]
      rw [ih, track_tool_calls_eq_append, List.append_assoc]

/-! ## Claim C1 -/

/-- Claim C1 (confirmed): for every question, model name and search mode,
and for every exception raised by the agent run, `query_wikipedia` returns
a `WikipediaAgentResponse` whose error field is the structured
`AgentError` produced by the inline classification — carrying a category,
a user message, a suggestion, and the raw exception text as technical
detail — with no answer and no usage; the `except Exception` handler of
`wikipagent.py` line 129 converts every run failure this way instead of
propagating it, and the embedding is a total function, so no input makes
the coordinator raise. -/
theorem C1_run_failures_become_structured_errors
    (question openai_model : String) (mode : SearchMode)
    (events : List AgentEvent) (excType excMsg : String) :
    query_wikipedia question openai_model mode (.exn events excType excMsg) =
      { answer := none
        tool_calls := flattenList events
        usage := none
        error := some (classifyAgentException excType excMsg) } ∧
    (classifyAgentException excType excMsg).technical_details = excMsg := by
  constructor
  · simp only [query_wikipedia]
    rw [trackSubs_eq_append]
    rfl
  · unfold classifyAgentException
    split
    · rfl
    · split
      · rfl
      · split <;> rfl

/-! ## Claim C10 -/

/-- Claim C10 (confirmed): on the failure path the error response returned
by `query_wikipedia`, and the one built by `handle_agent_error`, carry in
`tool_calls` exactly the calls recorded before the failure in recording
order — the depth-first leaf tool-call events processed by the tracker,
respectively the list handed to `handle_agent_error` — and the trace is
not cleared. -/
theorem C10_error_response_keeps_recorded_trace
    (question openai_model : String) (mode : SearchMode)
    (events : List AgentEvent) (excType excMsg : String)
    (calls : List ToolCallRec) :
    (query_wikipedia question openai_model mode
        (.exn events excType excMsg)).tool_calls = flattenList events ∧
    (handle_agent_error excType excMsg calls).tool_calls = calls := by
  constructor
  · simp only [query_wikipedia]
    rw [trackSubs_eq_append]
    rfl
  · rfl

/-! ## Claim C9 -/

/-- Claim C9 (counterexample): a model run that emits no tool-call events
at all still yields a completed, error-free response in evaluation mode,
with zero recorded `wikipedia_search` calls — refuting the claim that
every completed evaluation-mode run has at least 3 search and 2 page
calls for every possible sequence of model responses. -/
theorem C9_counterexample :
    (query_wikipedia "Where do capybaras live?" "gpt-4o-mini" SearchMode.evaluation
        (.ok [] ⟨"Capybaras live in South America.", 9/10, ["Capybara"], none⟩ 100 20)).error
      = none ∧
    countCalls "wikipedia_search"
      (query_wikipedia "Where do capybaras live?" "gpt-4o-mini" SearchMode.evaluation
        (.ok [] ⟨"Capybaras live in South America.", 9/10, ["Capybara"], none⟩ 100 20)).tool_calls
      = 0 ∧
    countCalls "wikipedia_get_page"
      (query_wikipedia "Where do capybaras live?" "gpt-4o-mini" SearchMode.evaluation
        (.ok [] ⟨"Capybaras live in South America.", 9/10, ["Capybara"], none⟩ 100 20)).tool_calls
      = 0 := by
  refine ⟨rfl, rfl, rfl⟩

/-- Claim C9 (amended): `query_wikipedia` records tool calls without
enforcing any minimum — on every completed run, in every mode, the
recorded count of each tool equals the number of matching leaf tool-call
events in the model event stream, so the configured minimums
(`MIN_SEARCH_CALLS = 3`, `MIN_GET_PAGE_CALLS = 2`) hold exactly when the
model emits that many calls, and a completed run is error-free. -/
theorem C9_amended_counts_follow_model_events
    (question openai_model : String) (mode : SearchMode) (name : String)
    (events : List AgentEvent) (out : SearchAgentAnswer) (it ot : Nat) :
    countCalls name
      (query_wikipedia question openai_model mode (.ok events out it ot)).tool_calls
      = countCalls name (flattenList events) ∧
    (query_wikipedia question openai_model mode (.ok events out it ot)).error = none := by
  constructor
  · simp only [query_wikipedia]
    rw [trackSubs_eq_append]
    rfl
  · rfl

/-! ## Claim C2 -/

/-- Claim C2 (counterexample): `query_wikipedia` contains no race against
the cost guardrail — `run_with_guardrails` and `cost_guardrail` are never
invoked by it, and its result is a function of the agent-run outcome
alone.  Concretely, a successful run is returned error-free (no abort
happens, whatever any cost counter did), and even when the cost
guardrail exception surfaces as the run failure, the reported category is
the fallback type name "GuardrailException", not "GuardrailTrip". -/
theorem C2_counterexample :
    (query_wikipedia "What is the capital of France?" "gpt-4o-mini" SearchMode.evaluation
        (.ok [] ⟨"Paris", 1, ["Paris"], none⟩ 10 5)).error = none ∧
    (query_wikipedia "What is the capital of France?" "gpt-4o-mini" SearchMode.evaluation
        (.exn [] "GuardrailException" "Cost limit exceeded: $1.50 (limit: $1.00)")).error =
      some { error_type := "GuardrailException"
             message := "An error occurred: GuardrailException"
             suggestion := fallbackSuggestionText
             technical_details := "Cost limit exceeded: $1.50 (limit: $1.00)" } ∧
    ("GuardrailException" : String) ≠ "GuardrailTrip" := by
  refine ⟨rfl, by decide, by decide⟩

/-- Claim C2 (amended): during a `query_wikipedia` run the model
invocation is not raced against any guardrail; the response depends only
on the agent-run outcome — a successful run returns error-free, a failed
run carries the inline classification of the raised exception, and a
surfacing `GuardrailException` (the exception type of the unused cost
guardrail) is categorised by its type name, not as a guardrail trip. -/
theorem C2_amended_no_guardrail_race
    (question openai_model : String) (mode : SearchMode)
    (events : List AgentEvent) (out : SearchAgentAnswer) (it ot : Nat)
    (excType excMsg : String) :
    (query_wikipedia question openai_model mode (.ok events out it ot)).error = none ∧
    (query_wikipedia question openai_model mode (.exn events excType excMsg)).error =
      some (classifyAgentException excType excMsg) ∧
    (classifyAgentException "GuardrailException"
        "Cost limit exceeded: $1.50 (limit: $1.00)").error_type = "GuardrailException" := by
  refine ⟨rfl, rfl, by decide⟩

/-! ## Claim C7 -/

/-- Claim C7 (counterexample): a `RuntimeError` whose message is
"bad api key" matches the claimed first table (keyword "api") and would be
categorised "ModelAPI" by the claimed rules, but `handle_agent_error`
matches no table — its first table keys on "wikipedia" and "http", not
"api" — and assigns the exception type name "RuntimeError" as category,
not "ModelAPI" and not "Unknown". -/
theorem C7_counterexample :
    claimC7Category "RuntimeError" "bad api key" = "ModelAPI" ∧
    ((handle_agent_error "RuntimeError" "bad api key" []).error.map
        (fun e => e.error_type)) = some "RuntimeError" ∧
    ("RuntimeError" : String) ≠ "ModelAPI" := by
  refine ⟨by decide, by decide, by decide⟩

/-- Helper: `any` over a disjunction of predicates splits into a
disjunction of `any`. -/
theorem list_any_or_split (l : List String) (f g : String → Bool) :
    (l.any fun x => f x || g x) = (l.any f || l.any g) := by
  induction l with
  | nil => simp
  | cons a t ih =>
      simp only [List.any_cons, ih]
      cases f a <;> cases g a <;> cases t.any f <;> cases t.any g <;> rfl

/-- Claim C7 (amended): `handle_agent_error` classifies a failure by
testing the lowercased exception message and type name against ordered
keyword tables — WikipediaAPI by ["wikipedia", "http"], Network by
["connection"], Timeout by ["timeout"], in that order — and a failure
matching no table is assigned the exception type name itself as its
category, not a fixed "Unknown" label. -/
theorem C7_amended_keyword_tables
    (excType excMsg : String) (calls : List ToolCallRec) :
    ((handle_agent_error excType excMsg calls).error.map (fun e => e.error_type)) =
      some (keywordTableCategory amendedC7Tables excType excMsg) := by
  simp only [handle_agent_error, findErrorConfig, ERROR_MAPPINGS,
    keywordTableCategory, amendedC7Tables, list_any_or_split]
  split_ifs <;> simp_all

/-! ## Claims C3 and C4 -/

/-- Helper: a cost guardrail whose cost trace never exceeds the limit
polls forever — it neither completes nor trips. -/
theorem cost_guardrail_under_limit_runs_forever (b : GuardrailBeh)
    (h : cost_guardrail_beh 1 (fun _ => 0) b) : b = .runsForever := by
  cases b with
  | completes t => exact absurd h (by simp [cost_guardrail_beh])
  | trips t m =>
      exfalso
      have h1 := h.1
      simp [cost_guardrail_beh] at h1
      exact absurd h1 (by norm_num)
  | runsForever => rfl

/-- Claim C3 (code bug): when the agent completes first and the single
guardrail is a perpetual poller (the behaviour of `cost_guardrail` with a
cost trace that never exceeds the limit), `run_with_guardrails` performs
no cancellation at all: the `await asyncio.gather` on line 103 keeps
waiting for the guardrail, the call never returns the agent result, and
the guardrail task is left scheduled — the cancel-and-return protocol of
the claim is absent from the success path. -/
theorem C3_agent_completion_leaves_guardrail_uncancelled :
    run_with_guardrails (AgentBeh.completes 1 (0 : Nat)) [GuardrailBeh.runsForever] =
      { result := .hangs
        actions := []
        agentFinal := .finished
        guardFinals := [.stillScheduled] } := by
  rfl

/-- Claim C4 (confirmed): when a guardrail raises a `GuardrailException`
at tick `tg` while the agent task is still running, `run_with_guardrails`
raises that trip, and its handler first cancels the agent task and awaits
its cancellation, then cancels every guardrail task and awaits them, and
only then re-raises; afterwards the agent task is cancelled and no
guardrail task remains scheduled. -/
theorem C4_trip_cancels_agent_then_guardrails {α : Type}
    (agent : AgentBeh α) (gs : List GuardrailBeh) (tg : Nat) (msg : String)
    (hft : firstTrip gs = some (tg, msg)) (hrun : agentRunningAt agent tg) :
    (run_with_guardrails agent gs).result = .raisedTrip tg msg ∧
    (run_with_guardrails agent gs).actions =
      [.cancelAgent, .awaitAgentCancel]
        ++ (List.range gs.length).map SupAction.cancelGuardrail
        ++ [.awaitGuardrailCancels, .reraiseTrip msg] ∧
    (run_with_guardrails agent gs).agentFinal = .cancelled ∧
    ∀ f ∈ (run_with_guardrails agent gs).guardFinals, f ≠ .stillScheduled := by
  simp only [run_with_guardrails, hft]
  refine ⟨trivial, trivial, ?_, ?_⟩
  · cases agent with
    | completes ta r =>
        have hlt : tg < ta := hrun
        simp only []
        rw [if_neg (by omega)]
    | runsForever => rfl
  · intro f hf
    simp only [List.mem_map] at hf
    obtain ⟨g, _, hfg⟩ := hf
    by_cases hg : guardDoneBy tg g = true
    · rw [← hfg, if_pos hg]
      simp
    · rw [← hfg, if_neg hg]
      simp

/-- Witness for claim C4: a cost-style guardrail tripping at tick 2 while
the agent would complete at tick 5, next to a perpetual guardrail. -/
theorem C4_witness :
    firstTrip [GuardrailBeh.trips 2 "Cost limit exceeded: $1.50 (limit: $1.00)",
        GuardrailBeh.runsForever] =
      some (2, "Cost limit exceeded: $1.50 (limit: $1.00)") ∧
    agentRunningAt (AgentBeh.completes 5 (0 : Nat)) 2 ∧
    ((run_with_guardrails (AgentBeh.completes 5 (0 : Nat))
        [GuardrailBeh.trips 2 "Cost limit exceeded: $1.50 (limit: $1.00)",
         GuardrailBeh.runsForever]).result =
      .raisedTrip 2 "Cost limit exceeded: $1.50 (limit: $1.00)" ∧
    (run_with_guardrails (AgentBeh.completes 5 (0 : Nat))
        [GuardrailBeh.trips 2 "Cost limit exceeded: $1.50 (limit: $1.00)",
         GuardrailBeh.runsForever]).actions =
      [.cancelAgent, .awaitAgentCancel]
        ++ (List.range 2).map SupAction.cancelGuardrail
        ++ [.awaitGuardrailCancels,
            .reraiseTrip "Cost limit exceeded: $1.50 (limit: $1.00)"] ∧
    (run_with_guardrails (AgentBeh.completes 5 (0 : Nat))
        [GuardrailBeh.trips 2 "Cost limit exceeded: $1.50 (limit: $1.00)",
         GuardrailBeh.runsForever]).agentFinal = .cancelled ∧
    ∀ f ∈ (run_with_guardrails (AgentBeh.completes 5 (0 : Nat))
        [GuardrailBeh.trips 2 "Cost limit exceeded: $1.50 (limit: $1.00)",
         GuardrailBeh.runsForever]).guardFinals, f ≠ .stillScheduled) := by
  refine ⟨rfl, show (2 : Nat) < 5 by norm_num,
    C4_trip_cancels_agent_then_guardrails _ _ _ _ rfl (show (2 : Nat) < 5 by norm_num)⟩

/-! ## Claim C5 -/

/-- Helper: with at least one iteration left on the canonical call chain
(`attempt + remaining = max_retries`), the retry loop always returns a
value — the post-loop raise is unreachable once the loop runs. -/
theorem judgeRetryGo_no_raise (oracle : Nat → JudgeAttemptResult) (max_retries : Nat) :
    ∀ remaining attempt, attempt + remaining = max_retries → 0 < remaining →
    ∃ r, judgeRetryGo oracle max_retries attempt remaining = .ok r := by
  intro remaining
  induction remaining with
  | zero => intro attempt _ h; omega
  | succ n ih =>
      intro attempt hsum _
      simp only [judgeRetryGo]
      cases horacle : oracle attempt with
      | ok ev it ot => exact ⟨_, rfl⟩
      | err m =>
          show ∃ r, (if attempt = max_retries - 1 then
              Except.ok (fallbackEval m, ⟨0, 0, 0⟩)
            else judgeRetryGo oracle max_retries (attempt + 1) n) = .ok r
          by_cases hlast : attempt = max_retries - 1
          · rw [if_pos hlast]
            exact ⟨_, rfl⟩
          · rw [if_neg hlast]
            exact ih (attempt + 1) (by omega) (by omega)

/-- Helper: failures strictly before attempt `s` and a success at attempt
`s` make the loop return that evaluation with its real usage. -/
theorem judgeRetryGo_success (oracle : Nat → JudgeAttemptResult)
    (max_retries s : Nat) (ev : JudgeEvaluation) (it ot : Nat)
    (hs : s < max_retries) (hok : oracle s = .ok ev it ot) :
    ∀ remaining attempt, attempt + remaining = max_retries → attempt ≤ s →
    (∀ j, attempt ≤ j → j < s → ∃ m, oracle j = .err m) →
    judgeRetryGo oracle max_retries attempt remaining = .ok (ev, ⟨it, ot, it + ot⟩) := by
  intro remaining
  induction remaining with
  | zero => intro attempt hsum hle _; omega
  | succ n ih =>
      intro attempt hsum hle hfail
      simp only [judgeRetryGo]
      rcases Nat.eq_or_lt_of_le hle with heq | hlt
      · subst heq
        rw [hok]
      · obtain ⟨m, hm⟩ := hfail attempt le_rfl hlt
        rw [hm]
        show (if attempt = max_retries - 1 then
            Except.ok (fallbackEval m, ⟨0, 0, 0⟩)
          else judgeRetryGo oracle max_retries (attempt + 1) n) = _
        have hlast : ¬(attempt = max_retries - 1) := by omega
        rw [if_neg hlast]
        exact ih (attempt + 1) (by omega) (by omega)
          (fun j hj1 hj2 => hfail j (by omega) hj2)

/-- Helper: the sleep trace of a run with failures strictly before the
successful attempt `s` is `2 ^ j` for `j = attempt, ..., s - 1`. -/
theorem judgeSleeps_success (oracle : Nat → JudgeAttemptResult)
    (max_retries s : Nat) (ev : JudgeEvaluation) (it ot : Nat)
    (hs : s < max_retries) (hok : oracle s = .ok ev it ot) :
    ∀ remaining attempt, attempt + remaining = max_retries → attempt ≤ s →
    (∀ j, attempt ≤ j → j < s → ∃ m, oracle j = .err m) →
    judgeSleeps oracle max_retries attempt remaining =
      (List.range' attempt (s - attempt)).map (2 ^ ·) := by
  intro remaining
  induction remaining with
  | zero => intro attempt hsum hle _; omega
  | succ n ih =>
      intro attempt hsum hle hfail
      simp only [judgeSleeps]
      rcases Nat.eq_or_lt_of_le hle with heq | hlt
      · subst heq
        rw [hok]
        show ([] : List Nat) = (List.range' attempt (attempt - attempt)).map (2 ^ ·)
        rw [Nat.sub_self]
        rfl
      · obtain ⟨m, hm⟩ := hfail attempt le_rfl hlt
        rw [hm]
        show (if attempt = max_retries - 1 then ([] : List Nat)
          else 2 ^ attempt :: judgeSleeps oracle max_retries (attempt + 1) n) = _
        have hlast : ¬(attempt = max_retries - 1) := by omega
        rw [if_neg hlast]
        rw [ih (attempt + 1) (by omega) (by omega)
          (fun j hj1 hj2 => hfail j (by omega) hj2)]
        have hsa : s - attempt = (s - (attempt + 1)) + 1 := by omega
        rw [hsa, List.range'_succ]
        rfl

/-- Helper: failures on every attempt make the loop return the zero
fallback carrying the message of the last attempt. -/
theorem judgeRetryGo_allfail (oracle : Nat → JudgeAttemptResult)
    (max_retries : Nat) (m : String)
    (hm : oracle (max_retries - 1) = .err m) :
    ∀ remaining attempt, attempt + remaining = max_retries → 0 < remaining →
    (∀ j, attempt ≤ j → j < max_retries → ∃ mj, oracle j = .err mj) →
    judgeRetryGo oracle max_retries attempt remaining =
      .ok (fallbackEval m, ⟨0, 0, 0⟩) := by
  intro remaining
  induction remaining with
  | zero => intro attempt _ h; omega
  | succ n ih =>
      intro attempt hsum _ hfail
      simp only [judgeRetryGo]
      by_cases hlast : attempt = max_retries - 1
      · rw [hlast, hm]
        show (if max_retries - 1 = max_retries - 1 then
            Except.ok (fallbackEval m, ⟨0, 0, 0⟩)
          else judgeRetryGo oracle max_retries (max_retries - 1 + 1) n) = _
        rw [if_pos rfl]
      · obtain ⟨mj, hmj⟩ := hfail attempt le_rfl (by omega)
        rw [hmj]
        show (if attempt = max_retries - 1 then
            Except.ok (fallbackEval mj, ⟨0, 0, 0⟩)
          else judgeRetryGo oracle max_retries (attempt + 1) n) = _
        rw [if_neg hlast]
        have hn : 0 < n := by omega
        exact ih (attempt + 1) (by omega) hn (fun j hj1 hj2 => hfail j (by omega) hj2)

/-- Helper: the sleep trace of a run whose every attempt fails is `2 ^ j`
for `j = attempt, ..., max_retries - 2` (no sleep after the last attempt). -/
theorem judgeSleeps_allfail (oracle : Nat → JudgeAttemptResult)
    (max_retries : Nat) :
    ∀ remaining attempt, attempt + remaining = max_retries → 0 < remaining →
    (∀ j, attempt ≤ j → j < max_retries → ∃ mj, oracle j = .err mj) →
    judgeSleeps oracle max_retries attempt remaining =
      (List.range' attempt (max_retries - 1 - attempt)).map (2 ^ ·) := by
  intro remaining
  induction remaining with
  | zero => intro attempt _ h; omega
  | succ n ih =>
      intro attempt hsum _ hfail
      simp only [judgeSleeps]
      obtain ⟨mj, hmj⟩ := hfail attempt le_rfl (by omega)
      rw [hmj]
      show (if attempt = max_retries - 1 then ([] : List Nat)
        else 2 ^ attempt :: judgeSleeps oracle max_retries (attempt + 1) n) = _
      by_cases hlast : attempt = max_retries - 1
      · rw [if_pos hlast]
        have hz : max_retries - 1 - attempt = 0 := by omega
        rw [hz]
        rfl
      · rw [if_neg hlast]
        have hn : 0 < n := by omega
        rw [ih (attempt + 1) (by omega) hn (fun j hj1 hj2 => hfail j (by omega) hj2)]
        have hsa : max_retries - 1 - attempt = (max_retries - 1 - (attempt + 1)) + 1 := by
          omega
        rw [hsa, List.range'_succ]
        rfl

/-- Claim C5 (counterexample): the claim quantifies over every
`max_retries`, but with `max_retries = 0` the loop body never runs and
`_run_judge_with_retry` reaches the post-loop `raise RuntimeError`, so the
evaluation does raise to its caller. -/
theorem C5_counterexample :
    run_judge_with_retry (fun _ => JudgeAttemptResult.err "boom") 0 =
      .error "Judge evaluation failed after all retries" := rfl

/-- Claim C5 (amended): for every attempt oracle and every
`max_retries ≥ 1` — the bound forced by the counterexample — if the judge
invocation fails on the attempts before attempt `s` and succeeds at `s`,
the loop returns that evaluation with its real usage
(`total = input + output`) and the sleep trace holds `2 ^ j` seconds for
each failed attempt `j < s`; if every attempt fails, it returns the
fallback evaluation whose four scores are zero and whose reasoning string
carries the last failure detail, with zero usage, sleeping `2 ^ j` after
every failed attempt except the last; and in every case the call returns
instead of raising. -/
theorem C5_amended_retry_policy (oracle : Nat → JudgeAttemptResult)
    (max_retries : Nat) (h1 : 1 ≤ max_retries) :
    (∀ s ev it ot, s < max_retries →
        (∀ j, j < s → ∃ m, oracle j = .err m) →
        oracle s = .ok ev it ot →
        run_judge_with_retry oracle max_retries = .ok (ev, ⟨it, ot, it + ot⟩) ∧
        judge_sleep_trace oracle max_retries = (List.range s).map (2 ^ ·)) ∧
    (∀ m, (∀ j, j < max_retries → ∃ mj, oracle j = .err mj) →
        oracle (max_retries - 1) = .err m →
        run_judge_with_retry oracle max_retries = .ok (fallbackEval m, ⟨0, 0, 0⟩) ∧
        judge_sleep_trace oracle max_retries =
          (List.range (max_retries - 1)).map (2 ^ ·)) ∧
    (∃ r, run_judge_with_retry oracle max_retries = .ok r) := by
  refine ⟨?_, ?_, ?_⟩
  · intro s ev it ot hs hfail hok
    constructor
    · exact judgeRetryGo_success oracle max_retries s ev it ot hs hok
        max_retries 0 (by omega) (by omega) (fun j _ hj2 => hfail j hj2)
    · have h := judgeSleeps_success oracle max_retries s ev it ot hs hok
        max_retries 0 (by omega) (by omega) (fun j _ hj2 => hfail j hj2)
      rw [List.range_eq_range']
      simpa [judge_sleep_trace] using h
  · intro m hfail hm
    constructor
    · exact judgeRetryGo_allfail oracle max_retries m hm
        max_retries 0 (by omega) (by omega) (fun j _ hj2 => hfail j hj2)
    · have h := judgeSleeps_allfail oracle max_retries
        max_retries 0 (by omega) (by omega) (fun j _ hj2 => hfail j hj2)
      rw [List.range_eq_range']
      simpa [judge_sleep_trace] using h
  · exact judgeRetryGo_no_raise oracle max_retries max_retries 0 (by omega) (by omega)

/-- Witness for claim C5: a judge that fails twice and succeeds on the
third attempt, with `max_retries = 3`, returns the successful evaluation
with usage 100 + 20 = 120 after back-off sleeps of 1 and 2 seconds. -/
theorem C5_witness :
    (1 ≤ 3) ∧
    run_judge_with_retry
        (fun n => if n < 2 then JudgeAttemptResult.err "transient failure"
          else JudgeAttemptResult.ok ⟨9/10, 1, 4/5, 1, "good answer"⟩ 100 20) 3 =
      .ok (⟨9/10, 1, 4/5, 1, "good answer"⟩, ⟨100, 20, 120⟩) ∧
    judge_sleep_trace
        (fun n => if n < 2 then JudgeAttemptResult.err "transient failure"
          else JudgeAttemptResult.ok ⟨9/10, 1, 4/5, 1, "good answer"⟩ 100 20) 3 =
      [1, 2] := by
  have h := (C5_amended_retry_policy
      (fun n => if n < 2 then JudgeAttemptResult.err "transient failure"
        else JudgeAttemptResult.ok ⟨9/10, 1, 4/5, 1, "good answer"⟩ 100 20) 3
      (by norm_num)).1 2 ⟨9/10, 1, 4/5, 1, "good answer"⟩ 100 20 (by norm_num)
      (fun j hj => ⟨"transient failure", by rw [if_pos hj]⟩) (by rfl)
  refine ⟨by norm_num, h.1.trans (by rfl), h.2.trans (by rfl)⟩

/-! ## Claim C6 -/

/-- Helper: the evaluation loop appends exactly one record per item onto
the accumulator, in item order. -/
theorem evalLoop_eq_append_map (items : List (String × ItemOutcome)) :
    ∀ acc, evalLoop items acc = acc ++ items.map itemRecord := by
  induction items with
  | nil => intro acc; simp [evalLoop]
  | cons item rest ih =>
      intro acc
      simp only [evalLoop, List.map_cons]
      rw [ih]
      simp

/-- Claim C6 (confirmed): `evaluate_agent` appends exactly one record per
dataset item and processes the items strictly sequentially, the i-th
record coming from the i-th item: a successful item yields its computed
metrics, a raising item yields the all-zero fallback record, and the loop
continues past it; in particular a 3-item dataset whose second item raises
still produces 3 records, the middle one all-zero and the other two
carrying their real scores. -/
theorem C6_per_item_fallback_isolation :
    (∀ items : List (String × ItemOutcome),
        evaluate_agent items = items.map itemRecord ∧
        (evaluate_agent items).length = items.length) ∧
    evaluate_agent
        [("q1", .ok 1 1 (4/5) 3000 (17/10)),
         ("q2", .raises "agent call failed"),
         ("q3", .ok 0 (1/2) (3/5) 2500 (9/10))] =
      [{ question := "q1", hit_rate := 1, mrr := 1, judge_score := 4/5,
         num_tokens := 3000, combined_score := 17/10 },
       { question := "q2", hit_rate := 0, mrr := 0, judge_score := 0,
         num_tokens := 0, combined_score := 0 },
       { question := "q3", hit_rate := 0, mrr := 1/2, judge_score := 3/5,
         num_tokens := 2500, combined_score := 9/10 }] := by
  constructor
  · intro items
    have h := evalLoop_eq_append_map items []
    constructor
    · simpa [evaluate_agent] using h
    · have h2 : evaluate_agent items = items.map itemRecord := by
        simpa [evaluate_agent] using h
      rw [h2, List.length_map]
  · rfl

/-! ## Claim C8 -/

/-- Helper: inserting a record permutes consing it. -/
theorem insertByScore_perm (r : EvalRecord) (l : List EvalRecord) :
    List.Perm (insertByScore r l) (r :: l) := by
  induction l with
  | nil => simp [insertByScore]
  | cons x xs ih =>
      simp only [insertByScore]
      by_cases hx : x.combined_score ≤ r.combined_score
      · rw [if_pos hx]
      · rw [if_neg hx]
        exact (ih.cons x).trans (List.Perm.swap r x xs)

/-- Helper: the descending sort permutes its input. -/
theorem sortByScoreDesc_perm (l : List EvalRecord) :
    List.Perm (sortByScoreDesc l) l := by
  induction l with
  | nil => simp [sortByScoreDesc]
  | cons r rest ih =>
      simp only [sortByScoreDesc]
      exact (insertByScore_perm r (sortByScoreDesc rest)).trans (ih.cons r)

/-- Helper: inserting into a descending-sorted list keeps it sorted. -/
theorem insertByScore_sorted (r : EvalRecord) (l : List EvalRecord)
    (h : l.Pairwise (fun a b => b.combined_score ≤ a.combined_score)) :
    (insertByScore r l).Pairwise (fun a b => b.combined_score ≤ a.combined_score) := by
  induction l with
  | nil => simp [insertByScore]
  | cons x xs ih =>
      rw [List.pairwise_cons] at h
      obtain ⟨h1, h2⟩ := h
      simp only [insertByScore]
      by_cases hx : x.combined_score ≤ r.combined_score
      · rw [if_pos hx]
        refine List.Pairwise.cons ?_ ?_
        · intro y hy
          rcases List.mem_cons.1 hy with heq | hmem
          · rw [heq]; exact hx
          · exact le_trans (h1 y hmem) hx
        · exact List.Pairwise.cons h1 h2
      · rw [if_neg hx]
        refine List.Pairwise.cons ?_ (ih h2)
        intro y hy
        have hy2 : y ∈ r :: xs := (insertByScore_perm r xs).mem_iff.1 hy
        rcases List.mem_cons.1 hy2 with heq | hmem
        · rw [heq]
          exact le_of_lt (lt_of_not_le hx)
        · exact h1 y hmem

/-- Helper: the descending sort is sorted by `combined_score`
descending. -/
theorem sortByScoreDesc_sorted (l : List EvalRecord) :
    (sortByScoreDesc l).Pairwise (fun a b => b.combined_score ≤ a.combined_score) := by
  induction l with
  | nil => simp [sortByScoreDesc]
  | cons r rest ih =>
      simp only [sortByScoreDesc]
      exact insertByScore_sorted r (sortByScoreDesc rest) ih

/-- Helper: the start value bounds the max fold. -/
theorem le_foldl_max (xs : List ℚ) : ∀ a, a ≤ xs.foldl max a := by
  induction xs with
  | nil => intro a; simp
  | cons y ys ih =>
      intro a
      exact le_trans (le_max_left a y) (ih (max a y))

/-- Helper: every element bounds the max fold. -/
theorem mem_le_foldl_max (xs : List ℚ) : ∀ a x, x ∈ xs → x ≤ xs.foldl max a := by
  induction xs with
  | nil => intro a x hx; simp at hx
  | cons y ys ih =>
      intro a x hx
      rcases List.mem_cons.1 hx with heq | hmem
      · rw [heq]
        exact le_trans (le_max_right a y) (le_foldl_max ys (max a y))
      · exact ih (max a y) x hmem

/-- Helper: the max fold returns one of its inputs. -/
theorem foldl_max_mem (xs : List ℚ) : ∀ a, xs.foldl max a ∈ a :: xs := by
  induction xs with
  | nil => intro a; simp
  | cons y ys ih =>
      intro a
      have h := ih (max a y)
      rcases List.mem_cons.1 h with heq | hmem
      · rcases max_choice a y with hc | hc
        · rw [List.foldl_cons, heq, hc]
          exact List.mem_cons_self a (y :: ys)
        · rw [List.foldl_cons, heq, hc]
          exact List.mem_cons_of_mem a (List.mem_cons_self y ys)
      · rw [List.foldl_cons]
        exact List.mem_cons_of_mem a (List.mem_cons_of_mem y hmem)

/-- Helper: on a nonempty column, `seriesMax` is an element and an upper
bound. -/
theorem seriesMax_spec (l : List ℚ) (hl : l ≠ []) :
    seriesMax l ∈ l ∧ ∀ x ∈ l, x ≤ seriesMax l := by
  cases l with
  | nil => exact absurd rfl hl
  | cons a xs =>
      constructor
      · simpa [seriesMax] using foldl_max_mem xs a
      · intro x hx
        rcases List.mem_cons.1 hx with heq | hmem
        · rw [heq]
          simpa [seriesMax] using le_foldl_max xs a
        · simpa [seriesMax] using mem_le_foldl_max xs a x hmem

/-- Claim C8 (confirmed): for every nonempty results list, the persisted
report lists the records sorted by `combined_score` in descending order,
the sorted list is a permutation of the input — whole records are moved,
none is mutated — and `summary.best_combined_score` is the maximum
`combined_score` over the records (it is one of them and bounds them
all). -/
theorem C8_report_sorted_best_is_max (results : List EvalRecord)
    (h : results ≠ []) :
    ((save_evaluation_results results).results).Pairwise
      (fun a b => b.combined_score ≤ a.combined_score) ∧
    List.Perm ((save_evaluation_results results).results) results ∧
    (save_evaluation_results results).summary.best_combined_score ∈
      results.map (fun r => r.combined_score) ∧
    ∀ r ∈ results, r.combined_score ≤
      (save_evaluation_results results).summary.best_combined_score := by
  have hperm := sortByScoreDesc_perm results
  have hmapne : (sortByScoreDesc results).map (fun r => r.combined_score) ≠ [] := by
    intro hnil
    rw [List.map_eq_nil_iff] at hnil
    rw [hnil] at hperm
    exact h (List.Perm.eq_nil hperm.symm)
  obtain ⟨hmem, hub⟩ := seriesMax_spec _ hmapne
  refine ⟨sortByScoreDesc_sorted results, hperm, ?_, ?_⟩
  · exact (hperm.map (fun r => r.combined_score)).mem_iff.1 hmem
  · intro r hr
    have hrs : r ∈ sortByScoreDesc results := hperm.mem_iff.2 hr
    exact hub _ (List.mem_map_of_mem (fun r => r.combined_score) hrs)

/-- Witness for claim C8: the concrete three-record batch
`sampleRecords`. -/
theorem C8_witness :
    sampleRecords ≠ [] ∧
    (((save_evaluation_results sampleRecords).results).Pairwise
        (fun a b => b.combined_score ≤ a.combined_score) ∧
      List.Perm ((save_evaluation_results sampleRecords).results) sampleRecords ∧
      (save_evaluation_results sampleRecords).summary.best_combined_score ∈
        sampleRecords.map (fun r => r.combined_score) ∧
      ∀ r ∈ sampleRecords, r.combined_score ≤
        (save_evaluation_results sampleRecords).summary.best_combined_score) :=
  ⟨by decide, C8_report_sorted_best_is_max sampleRecords (by decide)⟩
